import Mathlib

/-!
Shallow embedding of `src/A1/generator.py`, the day-bird simulator.

Python strings are modelled as lists of characters (`List Char`), so that
`str.split` / `str.join` are ordinary recursive functions on lists.  The
process-global pseudo-random state of the `random` module is modelled as an
explicit oracle `RNG := Nat → Nat` threaded through the calls in program
order: each primitive call (`random.choice`, `random.randint`) consumes one
oracle value and advances the stream, and the drawn value is reduced into
the requested range with a modulus.  This keeps every property the script
relies on — determinism of the stream, in-range results, exactly one draw
per primitive call, and the order in which draws happen.
-/

namespace Birder

/-- The state of the process-wide pseudo-random generator: a deterministic
stream of natural numbers.  Consuming a value advances the stream. -/
abbrev RNG := Nat → Nat

/-- The stream after one value has been consumed. -/
def rngTail (g : RNG) : RNG := fun i => g (i + 1)

/-- `random.randint(lo, hi)`: an integer in the inclusive range `[lo, hi]`,
consuming one draw. -/
def randint (lo hi : Nat) (g : RNG) : Nat × RNG :=
  (lo + g 0 % (hi - lo + 1), rngTail g)

/-- `random.choice(seq)`: an element of the sequence, consuming one draw. -/
def choice (l : List (List Char)) (g : RNG) : List Char × RNG :=
  (l.getD (g 0 % l.length) [], rngTail g)

/-- Python `s.split(sep)` for a one-character separator: cut at every
occurrence of `sep`, keeping empty pieces, with `''.split(sep) == ['']`. -/
def pySplit (sep : Char) : List Char → List (List Char)
  | [] => [[]]
  | c :: cs =>
    match pySplit sep cs with
    | [] => [[]]
    | w :: ws => if c = sep then [] :: w :: ws else (c :: w) :: ws

/-- Python `sep.join(words)` for a one-character separator. -/
def pyJoin (sep : Char) : List (List Char) → List Char
  | [] => []
  | [w] => w
  | w :: ws => w ++ sep :: pyJoin sep ws

/-- The fixed catalog `_BIRDS` of generator.py, verbatim. -/
def _BIRDS : List (List Char) :=
  [ "Catharacta_skua", "Tringa_flavipes", "peewee", "gallinaceous_bird",
    "yellowthroat", "dunlin", "notornis", "Ardea_occidentalis",
    "English_sparrow", "titlark", "ring_blackbird", "American_woodcock",
    "takahe", "ern", "lyrebird", "coastal_diving_bird",
    "Vireo_solitarius", "red-shouldered_hawk", "Polynesian_tattler",
    "cuckoo", "tit", "tree_martin", "bird_of_Juno", "skua", "cacique",
    "tufted_puffin", "Buteo_buteo", "Fulmarus_glacialis",
    "resplendent_quetzel", "oilbird", "lesser_whitethroat", "antbird",
    "Haliatus_albicilla", "wood-creeper", "ocellated_turkey",
    "downy_woodpecker", "Corvus_monedula", "Oriolus_oriolus",
    "grey_catbird", "songbird", "grossbeak", "ringdove", "wren-tit",
    "longlegs", "Chen_caerulescens", "roller", "darter",
    "Alcedo_atthis", "Psophia_crepitans", "ratite",
    "Phalaenoptilus_nuttallii", "pine_grosbeak", "pine_finch",
    "butterball", "Parus_carolinensis", "Circus_Aeruginosus",
    "great_auk", "European_nightjar", "rhea", "ortolan", "duck",
    "Mimus_polyglotktos", "whidah", "bushtit", "nightjar",
    "Syrrhaptes_paradoxus", "Bubo_virginianus", "aepyornis", "puffin",
    "Carpodacus_purpureus", "Haliaeetus_leucocephalus", "curlew",
    "ratite_bird", "blue_tit", "Eurasian_kingfisher",
    "European_nuthatch", "kaki", "Mother_Carey\x27s_chicken",
    "Dolichonyx_oryzivorus", "carinate_bird", "Padda_oryzivora",
    "true_sparrow", "bush_tit", "tufted_titmouse", "tomtit",
    "lesser_scaup_duck", "Garullus_garullus", "whooper", "piping_crow",
    "guan", "red-legged_partridge", "mockingbird", "bantam",
    "gyrfalcon", "Cygnus_columbianus", "cochin", "titmouse", "scaup",
    "Milvus_migrans", "smew", "grey_kingbird", "oyster_catcher", "cock",
    "chuck-will\x27s-widow", "fulmar_petrel", "Actitis_macularia",
    "petrel", "chunga", "Collocalia_inexpectata", "cliff_swallow",
    "moorbird", "Actitis_hypoleucos" ].map String.data

/-- The generator expression `(random.choice(_BIRDS) for _ in range(n))`,
which `str.join` consumes left to right, one draw per element. -/
def chooseN : Nat → RNG → List (List Char) × RNG
  | 0, g => ([], g)
  | n + 1, g =>
    let p := choice _BIRDS g
    let q := chooseN n p.2
    (p.1 :: q.1, q.2)

/-- `make_birds_for_day`: a day is the space-joined string of
`random.randint(100, 1000)` i.i.d. choices from `_BIRDS`.  The bound of the
`range` is evaluated first, then the choices are drawn in order. -/
def make_birds_for_day (g : RNG) : List Char × RNG :=
  let p := randint 100 1000 g
  let q := chooseN p.1 p.2
  (pyJoin ' ' q.1, q.2)

/-- `find_bird_in_day`: the elements of `day.split(' ')` equal to `bird`. -/
def find_bird_in_day (bird day : List Char) : List (List Char) :=
  (pySplit ' ' day).filter (fun x => x == bird)

/-- `birder_list(days)`: the list comprehension
`[make_birds_for_day() for _ in range(days)]`, evaluated in order; the
second component is the random state after the whole list is built. -/
def birder_list : Nat → RNG → List (List Char) × RNG
  | 0, g => ([], g)
  | n + 1, g =>
    let p := make_birds_for_day g
    let q := birder_list n p.2
    (p.1 :: q.1, q.2)

/-- The suspended state of the generator returned by `birder_generator`:
the number of days not yet yielded and the random state it will draw from.
The state holds no day records — a record only comes into being when the
consumer pulls. -/
structure Gen where
  remaining : Nat
  g : RNG

/-- `birder_generator(days)`: calling the generator function only creates
the suspended generator; no day is produced and no randomness consumed. -/
def birder_generator (days : Nat) (g : RNG) : Gen := ⟨days, g⟩

/-- One pull on the generator: `next(gen)` either raises StopIteration
(`none`) when the loop is exhausted, or produces one day record and the
resumed state. -/
def genNext (c : Gen) : Option (List Char × Gen) :=
  match c with
  | ⟨0, _⟩ => none
  | ⟨n + 1, g⟩ => some ((make_birds_for_day g).1, ⟨n, (make_birds_for_day g).2⟩)

/-- All records a generator with `n` days left over state `g` will yield. -/
def genRecordsAux : Nat → RNG → List (List Char)
  | 0, _ => []
  | n + 1, g => (make_birds_for_day g).1 :: genRecordsAux n (make_birds_for_day g).2

/-- All records the generator will yield if pulled to exhaustion. -/
def genRecords (c : Gen) : List (List Char) := genRecordsAux c.remaining c.g

/-- The generator state after `k` pulls (pulling on an exhausted generator
changes nothing). -/
def genDrop : Nat → Gen → Gen
  | 0, c => c
  | k + 1, c =>
    match genNext c with
    | none => c
    | some p => genDrop k p.2

/-- `watcher_daily` consuming a fully materialised list of day records:
`count = 0; for day in it: count += len(find_bird_in_day(bird, day))`. -/
def watcher_daily (bird : List Char) (day_iterator : List (List Char)) : Nat :=
  day_iterator.foldl (fun count day => count + (find_bird_in_day bird day).length) 0

/-- `watcher_global` consuming a fully materialised list of day records:
`birds = []; for day in it: birds.extend(find_bird_in_day(bird, day))`;
the result is `len(birds)`. -/
def watcher_global (bird : List Char) (day_iterator : List (List Char)) : Nat :=
  (day_iterator.foldl (fun birds day => birds ++ find_bird_in_day bird day) []).length

/-- The loop of `watcher_daily` when the iterator is the suspended
generator: each iteration pulls one day, scores it, and discards it. -/
def watcher_daily_genAux (bird : List Char) : Nat → Nat → RNG → Nat
  | count, 0, _ => count
  | count, n + 1, g =>
    watcher_daily_genAux bird
      (count + (find_bird_in_day bird (make_birds_for_day g).1).length) n
      (make_birds_for_day g).2

/-- `watcher_daily` applied to a generator. -/
def watcher_daily_gen (bird : List Char) (c : Gen) : Nat :=
  watcher_daily_genAux bird 0 c.remaining c.g

/-- The accumulated `birds` list of `watcher_global` when the iterator is
the suspended generator. -/
def watcher_global_genAux (bird : List Char) : List (List Char) → Nat → RNG → List (List Char)
  | birds, 0, _ => birds
  | birds, n + 1, g =>
    watcher_global_genAux bird
      (birds ++ find_bird_in_day bird (make_birds_for_day g).1) n
      (make_birds_for_day g).2

/-- `watcher_global` applied to a generator. -/
def watcher_global_gen (bird : List Char) (c : Gen) : Nat :=
  (watcher_global_genAux bird [] c.remaining c.g).length

/-- Specification-side reference count: the number of elements equal to
`bird` across all day records (each record read as its space-split
elements). -/
def countOcc (bird : List Char) : List (List Char) → Nat
  | [] => 0
  | day :: days => (pySplit ' ' day).count bird + countOcc bird days

/-- The `choices=['list', 'generator']` of the BIRDER argument. -/
def birderChoices : List String := ["list", "generator"]

/-- The `choices=['globally', 'daily']` of the WATCHER argument. -/
def watcherChoices : List String := ["globally", "daily"]

/-- An argparse validation failure, carrying the name of the offending
positional argument and the rejected token. -/
inductive ArgError where
  | invalidChoice (argName tok : String)
  | invalidInt (argName tok : String)
deriving DecidableEq

/-- Accumulate decimal digits; fail on the first non-digit. -/
def digitsToNat : List Char → Nat → Option Nat
  | [], acc => some acc
  | c :: cs, acc =>
    if c.isDigit then digitsToNat cs (acc * 10 + (c.toNat - 48)) else none

/-- Model of Python `int(str)` as argparse `type=int` uses it: an optional
sign followed by at least one decimal digit parses to the signed value;
anything else fails. -/
def parseInt? (s : String) : Option Int :=
  match s.data with
  | [] => none
  | '-' :: cs => if cs = [] then none else (digitsToNat cs 0).map (fun n => -(n : Int))
  | '+' :: cs => if cs = [] then none else (digitsToNat cs 0).map (fun n => (n : Int))
  | cs => (digitsToNat cs 0).map (fun n => (n : Int))

/-- The parsed run configuration. -/
structure Config where
  BIRDER : String
  WATCHER : String
  DAYS : Int
deriving DecidableEq

/-- The `ArgumentParser` of `main`: three positional arguments, validated
in order; the first failure is reported, naming the offending argument. -/
def parseArgs (b w d : String) : Except ArgError Config :=
  if b ∈ birderChoices then
    if w ∈ watcherChoices then
      match parseInt? d with
      | some n => Except.ok ⟨b, w, n⟩
      | none => Except.error (ArgError.invalidInt "DAYS" d)
    else Except.error (ArgError.invalidChoice "WATCHER" w)
  else Except.error (ArgError.invalidChoice "BIRDER" b)

/-- The observable outcome of a successful run: the target bird drawn, the
day records generated, and the printed total count. -/
structure RunResult where
  bird : List Char
  records : List (List Char)
  count : Nat
deriving DecidableEq

/-- `main`: parse the arguments (a failure stops the script before
`random.choice` is ever reached); then draw the target bird — one draw —
then produce the day records in the configured production mode (Python's
`range` over a negative bound is empty, hence `Int.toNat`) and count them
with the configured watcher. -/
def mainModel (b w d : String) (g : RNG) : Except ArgError RunResult :=
  match parseArgs b w d with
  | Except.error e => Except.error e
  | Except.ok cfg =>
    let bird := (choice _BIRDS g).1
    let g1 := (choice _BIRDS g).2
    if cfg.BIRDER = "list" then
      let ds := (birder_list cfg.DAYS.toNat g1).1
      if cfg.WATCHER = "globally" then
        Except.ok ⟨bird, ds, watcher_global bird ds⟩
      else
        Except.ok ⟨bird, ds, watcher_daily bird ds⟩
    else
      let c := birder_generator cfg.DAYS.toNat g1
      if cfg.WATCHER = "globally" then
        Except.ok ⟨bird, genRecords c, watcher_global_gen bird c⟩
      else
        Except.ok ⟨bird, genRecords c, watcher_daily_gen bird c⟩

/-- Big-step production relation: from random state `g`, generating `n` day
records in order (one `make_birds_for_day` per day) yields the records `ds`
and the final random state. -/
inductive DayRecords : RNG → Nat → List (List Char) → RNG → Prop where
  | zero (g : RNG) : DayRecords g 0 [] g
  | succ (g : RNG) (n : Nat) (ds : List (List Char)) (g' : RNG) :
      DayRecords (make_birds_for_day g).2 n ds g' →
      DayRecords g (n + 1) ((make_birds_for_day g).1 :: ds) g'

/-- A concrete oracle, used to instantiate universally quantified results. -/
def gZero : RNG := fun _ => 0

/-- A second concrete oracle. -/
def gOne : RNG := fun _ => 1

theorem pySplit_ne_nil (sep : Char) (cs : List Char) : pySplit sep cs ≠ [] := by
  cases cs with
  | nil => simp [pySplit]
  | cons c cs =>
    simp only [pySplit]
    cases h : pySplit sep cs with
    | nil => simp
    | cons w ws => by_cases hc : c = sep <;> simp [hc]

theorem pySplit_no_sep (sep : Char) (w : List Char) (hw : sep ∉ w) :
    pySplit sep w = [w] := by
  induction w with
  | nil => rfl
  | cons c cs ih =>
    have hc : c ≠ sep := fun h => hw (h ▸ List.mem_cons_self c cs)
    have hcs : sep ∉ cs := fun h => hw (List.mem_cons_of_mem c h)
    simp only [pySplit, ih hcs]
    simp [hc]

theorem pySplit_append_sep (sep : Char) (w cs : List Char) (hw : sep ∉ w) :
    pySplit sep (w ++ sep :: cs) = w :: pySplit sep cs := by
  induction w with
  | nil =>
    simp only [List.nil_append, pySplit]
    cases h : pySplit sep cs with
    | nil => exact absurd h (pySplit_ne_nil sep cs)
    | cons u us => simp
  | cons c w ih =>
    have hc : c ≠ sep := fun h => hw (h ▸ List.mem_cons_self c w)
    have hw' : sep ∉ w := fun h => hw (List.mem_cons_of_mem c h)
    simp only [List.cons_append, pySplit, List.append_eq]
    rw [ih hw']
    simp [hc]

theorem pySplit_pyJoin (sep : Char) (l : List (List Char)) (hne : l ≠ [])
    (hl : ∀ w ∈ l, sep ∉ w) : pySplit sep (pyJoin sep l) = l := by
  induction l with
  | nil => exact absurd rfl hne
  | cons w ws ih =>
    cases ws with
    | nil =>
      simp only [pyJoin]
      exact pySplit_no_sep sep w (hl w (List.mem_cons_self w []))
    | cons w' ws' =>
      have hjoin : pyJoin sep (w :: w' :: ws') = w ++ sep :: pyJoin sep (w' :: ws') := rfl
      rw [hjoin, pySplit_append_sep sep w _ (hl w (List.mem_cons_self w _)),
        ih (by simp) (fun u hu => hl u (List.mem_cons_of_mem w hu))]

theorem getD_mem {l : List (List Char)} {i : Nat} {d : List Char}
    (h : i < l.length) : l.getD i d ∈ l := by
  induction l generalizing i with
  | nil => simp at h
  | cons a as ih =>
    cases i with
    | zero => simp
    | succ j =>
      rw [List.getD_cons_succ]
      exact List.mem_cons_of_mem a (ih (Nat.lt_of_succ_lt_succ h))

theorem birds_ne_nil : _BIRDS ≠ [] := by simp [_BIRDS]

theorem choice_fst_mem (g : RNG) : (choice _BIRDS g).1 ∈ _BIRDS := by
  have hpos : 0 < _BIRDS.length := List.length_pos.mpr birds_ne_nil
  exact getD_mem (Nat.mod_lt _ hpos)

theorem chooseN_length (n : Nat) (g : RNG) : (chooseN n g).1.length = n := by
  induction n generalizing g with
  | zero => rfl
  | succ m ih => simp [chooseN, ih]

theorem chooseN_mem (n : Nat) (g : RNG) (b : List Char)
    (hb : b ∈ (chooseN n g).1) : b ∈ _BIRDS := by
  induction n generalizing g with
  | zero => simp [chooseN] at hb
  | succ m ih =>
    simp only [chooseN, List.mem_cons] at hb
    cases hb with
    | inl h => exact h ▸ choice_fst_mem g
    | inr h => exact ih _ h

theorem birds_no_space : ∀ b ∈ _BIRDS, ' ' ∉ b := by decide

theorem make_birds_for_day_fst (g : RNG) :
    (make_birds_for_day g).1 = pyJoin ' ' (chooseN (100 + g 0 % 901) (rngTail g)).1 := rfl

theorem make_birds_split (g : RNG) :
    pySplit ' ' (make_birds_for_day g).1 = (chooseN (100 + g 0 % 901) (rngTail g)).1 := by
  rw [make_birds_for_day_fst]
  apply pySplit_pyJoin
  · intro h
    have hl := chooseN_length (100 + g 0 % 901) (rngTail g)
    rw [h] at hl
    simp at hl
    omega
  · intro w hw
    exact birds_no_space w (chooseN_mem _ _ w hw)

theorem find_bird_len (bird day : List Char) :
    (find_bird_in_day bird day).length = (pySplit ' ' day).count bird := by
  rw [find_bird_in_day, List.count_eq_countP, List.countP_eq_length_filter]

theorem watcher_daily_foldl (bird : List Char) (days : List (List Char)) (a : Nat) :
    days.foldl (fun count day => count + (find_bird_in_day bird day).length) a
      = a + countOcc bird days := by
  induction days generalizing a with
  | nil => simp [countOcc]
  | cons d ds ih =>
    simp only [List.foldl_cons]
    rw [ih, find_bird_len]
    simp only [countOcc]
    omega

theorem watcher_daily_count (bird : List Char) (days : List (List Char)) :
    watcher_daily bird days = countOcc bird days := by
  rw [watcher_daily, watcher_daily_foldl]
  exact Nat.zero_add _

theorem watcher_global_foldl (bird : List Char) (days : List (List Char))
    (acc : List (List Char)) :
    (days.foldl (fun birds day => birds ++ find_bird_in_day bird day) acc).length
      = acc.length + countOcc bird days := by
  induction days generalizing acc with
  | nil => simp [countOcc]
  | cons d ds ih =>
    simp only [List.foldl_cons]
    rw [ih]
    simp only [countOcc, List.length_append, find_bird_len]
    omega

theorem watcher_global_count (bird : List Char) (days : List (List Char)) :
    watcher_global bird days = countOcc bird days := by
  rw [watcher_global, watcher_global_foldl]
  simp

theorem watcher_daily_genAux_count (bird : List Char) (n : Nat) (g : RNG) (a : Nat) :
    watcher_daily_genAux bird a n g = a + countOcc bird (genRecordsAux n g) := by
  induction n generalizing g a with
  | zero => simp [watcher_daily_genAux, genRecordsAux, countOcc]
  | succ m ih =>
    simp only [watcher_daily_genAux, genRecordsAux, countOcc, ih, find_bird_len]
    omega

theorem watcher_daily_gen_count (bird : List Char) (c : Gen) :
    watcher_daily_gen bird c = countOcc bird (genRecords c) := by
  rw [watcher_daily_gen, genRecords, watcher_daily_genAux_count]
  exact Nat.zero_add _

theorem watcher_global_genAux_count (bird : List Char) (n : Nat) (g : RNG)
    (acc : List (List Char)) :
    (watcher_global_genAux bird acc n g).length
      = acc.length + countOcc bird (genRecordsAux n g) := by
  induction n generalizing g acc with
  | zero => simp [watcher_global_genAux, genRecordsAux, countOcc]
  | succ m ih =>
    simp only [watcher_global_genAux, genRecordsAux, countOcc, ih,
      List.length_append, find_bird_len]
    omega

theorem watcher_global_gen_count (bird : List Char) (c : Gen) :
    watcher_global_gen bird c = countOcc bird (genRecords c) := by
  rw [watcher_global_gen, genRecords, watcher_global_genAux_count]
  simp

theorem genRecordsAux_eq_birder_list (n : Nat) (g : RNG) :
    genRecordsAux n g = (birder_list n g).1 := by
  induction n generalizing g with
  | zero => rfl
  | succ m ih => simp [genRecordsAux, birder_list, ih]

theorem genRecordsAux_length (n : Nat) (g : RNG) :
    (genRecordsAux n g).length = n := by
  induction n generalizing g with
  | zero => rfl
  | succ m ih => simp [genRecordsAux, ih]

theorem genNext_of_remaining_zero (c : Gen) (h : c.remaining = 0) :
    genNext c = none := by
  cases c with
  | mk r g => cases h; rfl

theorem genDrop_records (k : Nat) (c : Gen) :
    genRecords (genDrop k c) = (genRecords c).drop k := by
  induction k generalizing c with
  | zero => simp [genDrop]
  | succ j ih =>
    cases c with
    | mk r g =>
      cases r with
      | zero => simp [genDrop, genNext, genRecords, genRecordsAux]
      | succ m =>
        simp only [genDrop, genNext, ih]
        simp [genRecords, genRecordsAux]

theorem genDrop_remaining (k : Nat) (c : Gen) :
    (genDrop k c).remaining = c.remaining - k := by
  induction k generalizing c with
  | zero => simp [genDrop]
  | succ j ih =>
    cases c with
    | mk r g =>
      cases r with
      | zero => simp [genDrop, genNext]
      | succ m =>
        simp only [genDrop, genNext, ih]
        omega

theorem dayRecords_det (g : RNG) (n : Nat) (ds1 : List (List Char)) (g1 : RNG)
    (h1 : DayRecords g n ds1 g1) :
    ∀ ds2 g2, DayRecords g n ds2 g2 → ds1 = ds2 ∧ g1 = g2 := by
  induction h1 with
  | zero g =>
    intro ds2 g2 h2
    cases h2
    exact ⟨rfl, rfl⟩
  | succ g m ds g' h ih =>
    intro ds2 g2 h2
    cases h2 with
    | succ _ _ ds' _ h' =>
      obtain ⟨hds, hg⟩ := ih ds' g2 h'
      exact ⟨by rw [hds], hg⟩

theorem dayRecords_birder_list (n : Nat) (g : RNG) :
    DayRecords g n (birder_list n g).1 (birder_list n g).2 := by
  induction n generalizing g with
  | zero => exact DayRecords.zero g
  | succ m ih =>
    simp only [birder_list]
    exact DayRecords.succ g m _ _ (ih (make_birds_for_day g).2)

theorem gen_branch_records (k : Nat) (g : RNG) :
    genRecords (birder_generator k g) = (birder_list k g).1 := by
  rw [genRecords]
  exact genRecordsAux_eq_birder_list k g

theorem mem_birderChoices (b : String) (hb : b ∈ birderChoices) :
    b = "list" ∨ b = "generator" := by
  simpa [birderChoices] using hb

theorem mem_watcherChoices (w : String) (hw : w ∈ watcherChoices) :
    w = "globally" ∨ w = "daily" := by
  simpa [watcherChoices] using hw

theorem mainModel_ok (b w d : String) (n : Int) (g : RNG)
    (hb : b ∈ birderChoices) (hw : w ∈ watcherChoices) (hd : parseInt? d = some n) :
    mainModel b w d g =
      Except.ok ⟨(choice _BIRDS g).1,
        (birder_list n.toNat (choice _BIRDS g).2).1,
        countOcc (choice _BIRDS g).1 (birder_list n.toNat (choice _BIRDS g).2).1⟩ := by
  have hparse : parseArgs b w d = Except.ok ⟨b, w, n⟩ := by
    rw [parseArgs, if_pos hb, if_pos hw, hd]
  rcases mem_birderChoices b hb with rfl | rfl <;>
    rcases mem_watcherChoices w hw with rfl | rfl <;>
    simp [mainModel, hparse, watcher_global_count, watcher_daily_count,
      watcher_global_gen_count, watcher_daily_gen_count, gen_branch_records]

theorem genRecords_length (c : Gen) : (genRecords c).length = c.remaining :=
  genRecordsAux_length c.remaining c.g

/-- C1: for every target bird, the two watchers agree with each other and
both return exactly the number of elements equal to the target across all
day records, whether the records come as a materialised list (any finite
sequence of day strings) or are pulled from the incremental generator: all
four production/consumption pairings return the same total. -/
theorem c1_count_equivalence (bird : List Char) (days : List (List Char)) (c : Gen) :
    watcher_daily bird days = countOcc bird days ∧
    watcher_global bird days = countOcc bird days ∧
    watcher_daily bird days = watcher_global bird days ∧
    watcher_daily_gen bird c = countOcc bird (genRecords c) ∧
    watcher_global_gen bird c = countOcc bird (genRecords c) ∧
    watcher_daily_gen bird c = watcher_global_gen bird c :=
  ⟨watcher_daily_count bird days, watcher_global_count bird days,
   by rw [watcher_daily_count, watcher_global_count],
   watcher_daily_gen_count bird c, watcher_global_gen_count bird c,
   by rw [watcher_daily_gen_count, watcher_global_gen_count]⟩

/-- C3: the incremental producer is forward-only: after `k ≤ N` pulls the
generator yields exactly the remaining `N - k` records — the suffix of the
full run — and after `N` pulls the next pull signals exhaustion; a consumer
arriving after `k ≥ 1` records have been pulled can no longer obtain all
`N` records. -/
theorem c3_generator_forward_only (N : Nat) (g : RNG) (k : Nat) (hk : k ≤ N) :
    genRecords (genDrop k (birder_generator N g)) =
      (genRecords (birder_generator N g)).drop k ∧
    (genRecords (genDrop k (birder_generator N g))).length = N - k ∧
    genNext (genDrop N (birder_generator N g)) = none ∧
    (1 ≤ k → (genRecords (genDrop k (birder_generator N g))).length < N) := by
  refine ⟨genDrop_records k _, ?_, ?_, ?_⟩
  · rw [genRecords_length, genDrop_remaining]
    rfl
  · apply genNext_of_remaining_zero
    rw [genDrop_remaining]
    show N - N = 0
    omega
  · intro hk1
    rw [genRecords_length, genDrop_remaining]
    show N - k < N
    omega

/-- C4: occurrence matching is exact string equality on the space-split
elements of the day: `find_bird_in_day` selects precisely the elements of
`day.split(' ')` that are character-for-character equal to `bird` (hence no
case-folding and no substring matches), and its size is the exact-equality
count. -/
theorem c4_exact_match (bird day x : List Char) :
    (x ∈ find_bird_in_day bird day ↔ x ∈ pySplit ' ' day ∧ x = bird) ∧
    (find_bird_in_day bird day).length = (pySplit ' ' day).count bird := by
  constructor
  · rw [find_bird_in_day]
    simp [List.mem_filter]
  · exact find_bird_len bird day

/-- C5: with a day count of zero neither producer yields any day record —
`birder_list` returns the empty list without touching the random state and
the generator is exhausted at the first pull — and both watchers return 0
over that empty production, in every pairing. -/
theorem c5_zero_days (g : RNG) (bird : List Char) :
    birder_list 0 g = ([], g) ∧
    genNext (birder_generator 0 g) = none ∧
    genRecords (birder_generator 0 g) = [] ∧
    watcher_daily bird [] = 0 ∧
    watcher_global bird [] = 0 ∧
    watcher_daily_gen bird (birder_generator 0 g) = 0 ∧
    watcher_global_gen bird (birder_generator 0 g) = 0 :=
  ⟨rfl, rfl, rfl, rfl, rfl, rfl, rfl⟩

/-- C6: every day record, split on single spaces, is a sequence of labels
drawn from the catalog `_BIRDS`, whose length lies in the inclusive range
`[100, 1000]`; and the length map is onto the range — each admissible
length `100 + m` for `m < 901` is realised by some random state, one state
residue per length, so a uniform draw of the oracle value gives a uniform
length. -/
theorem c6_day_record_shape (g : RNG) :
    100 ≤ (pySplit ' ' (make_birds_for_day g).1).length ∧
    (pySplit ' ' (make_birds_for_day g).1).length ≤ 1000 ∧
    (∀ t ∈ pySplit ' ' (make_birds_for_day g).1, t ∈ _BIRDS) ∧
    (∀ m : Fin 901, ∃ h : RNG,
      (pySplit ' ' (make_birds_for_day h).1).length = 100 + m.val) := by
  have hlen : (pySplit ' ' (make_birds_for_day g).1).length = 100 + g 0 % 901 := by
    rw [make_birds_split, chooseN_length]
  refine ⟨?_, ?_, ?_, ?_⟩
  · rw [hlen]; omega
  · rw [hlen]
    have hm : g 0 % 901 < 901 := Nat.mod_lt _ (by omega)
    omega
  · intro t ht
    rw [make_birds_split] at ht
    exact chooseN_mem _ _ t ht
  · intro m
    refine ⟨fun _ => m.val, ?_⟩
    rw [make_birds_split, chooseN_length]
    simp [Nat.mod_eq_of_lt m.isLt]

/-- C8: production is deterministic in the random state: any two runs of
the day-record production relation from the same state and day count yield
the same record sequence (byte-for-byte: same lengths and contents) and the
same final state; and the eager producer `birder_list` realises the
relation. -/
theorem c8_deterministic_run (g : RNG) (n : Nat) (ds1 ds2 : List (List Char))
    (g1 g2 : RNG) (h1 : DayRecords g n ds1 g1) (h2 : DayRecords g n ds2 g2) :
    ds1 = ds2 ∧ g1 = g2 ∧ DayRecords g n (birder_list n g).1 (birder_list n g).2 := by
  obtain ⟨hds, hg⟩ := dayRecords_det g n ds1 g1 h1 ds2 g2 h2
  exact ⟨hds, hg, dayRecords_birder_list n g⟩

/-- C9: the mode arguments do not influence the random stream: under any
valid configuration the target bird is the first draw, the day records are
produced from the stream after that single draw, and two runs differing
only in their BIRDER and WATCHER modes return the same bird, the same day
records and the same count. -/
theorem c9_modes_consume_no_randomness (b1 b2 w1 w2 d : String) (n : Int) (g : RNG)
    (hb1 : b1 ∈ birderChoices) (hb2 : b2 ∈ birderChoices)
    (hw1 : w1 ∈ watcherChoices) (hw2 : w2 ∈ watcherChoices)
    (hd : parseInt? d = some n) :
    mainModel b1 w1 d g =
      Except.ok ⟨(choice _BIRDS g).1,
        (birder_list n.toNat (choice _BIRDS g).2).1,
        countOcc (choice _BIRDS g).1 (birder_list n.toNat (choice _BIRDS g).2).1⟩ ∧
    mainModel b1 w1 d g = mainModel b2 w2 d g := by
  have hA := mainModel_ok b1 w1 d n g hb1 hw1 hd
  have hB := mainModel_ok b2 w2 d n g hb2 hw2 hd
  exact ⟨hA, by rw [hA, hB]⟩

/-- C10: a negative integer DAYS argument passes configuration validation:
`main` accepts it, both producers generate zero day records (range over a
negative bound is empty), and the run completes normally with a total
count of 0. -/
theorem c10_negative_days_accepted (b w d : String) (n : Int) (g : RNG)
    (hb : b ∈ birderChoices) (hw : w ∈ watcherChoices)
    (hd : parseInt? d = some n) (hn : n < 0) :
    mainModel b w d g = Except.ok ⟨(choice _BIRDS g).1, [], 0⟩ := by
  have h := mainModel_ok b w d n g hb hw hd
  have hz : n.toNat = 0 := Int.toNat_of_nonpos (le_of_lt hn)
  rw [h, hz]
  rfl

/-- C2 (amended): a non-integer day-count token is rejected at
configuration-validation time with an error naming the DAYS argument, and
the outcome does not depend on the random state — no random generation has
occurred; negative integers, however, pass validation. -/
theorem c2_amended_nonint_days_fail_fast (b w d : String) (g g' : RNG)
    (hb : b ∈ birderChoices) (hw : w ∈ watcherChoices)
    (hd : parseInt? d = none) :
    mainModel b w d g = Except.error (ArgError.invalidInt "DAYS" d) ∧
    mainModel b w d g = mainModel b w d g' := by
  have hparse : parseArgs b w d = Except.error (ArgError.invalidInt "DAYS" d) := by
    rw [parseArgs, if_pos hb, if_pos hw, hd]
  constructor
  · simp [mainModel, hparse]
  · simp [mainModel, hparse]

/-- C2 (counterexample): with the negative day count `-3` the program does
not reject the configuration — the run is accepted and completes with zero
day records and a count of 0, refuting the claim that every negative DAYS
argument fails at validation time. -/
theorem c2_counterexample_negative_days :
    mainModel "list" "daily" "-3" gZero =
      Except.ok ⟨"Catharacta_skua".data, [], 0⟩ := by
  rfl

/-- C7: an unrecognized BIRDER token is rejected with an error naming the
BIRDER argument, and with a valid BIRDER an unrecognized WATCHER token is
rejected with an error naming the WATCHER argument; in both cases the
outcome is independent of the random state, so no random generation has
occurred. -/
theorem c7_bad_mode_fail_fast (b w d : String) (g g' : RNG) :
    (b ∉ birderChoices →
      mainModel b w d g = Except.error (ArgError.invalidChoice "BIRDER" b) ∧
      mainModel b w d g = mainModel b w d g') ∧
    (b ∈ birderChoices → w ∉ watcherChoices →
      mainModel b w d g = Except.error (ArgError.invalidChoice "WATCHER" w) ∧
      mainModel b w d g = mainModel b w d g') := by
  constructor
  · intro hb
    have hparse : parseArgs b w d = Except.error (ArgError.invalidChoice "BIRDER" b) := by
      rw [parseArgs, if_neg hb]
    constructor <;> simp [mainModel, hparse]
  · intro hb hw
    have hparse : parseArgs b w d = Except.error (ArgError.invalidChoice "WATCHER" w) := by
      rw [parseArgs, if_pos hb, if_neg hw]
    constructor <;> simp [mainModel, hparse]

/-- Witness for C3 at a concrete run: two days, one record already pulled. -/
theorem c3_witness :
    genRecords (genDrop 1 (birder_generator 2 gZero)) =
      (genRecords (birder_generator 2 gZero)).drop 1 ∧
    (genRecords (genDrop 1 (birder_generator 2 gZero))).length = 2 - 1 ∧
    genNext (genDrop 2 (birder_generator 2 gZero)) = none ∧
    (1 ≤ 1 → (genRecords (genDrop 1 (birder_generator 2 gZero))).length < 2) :=
  c3_generator_forward_only 2 gZero 1 (by decide)

/-- Witness for C8 at a concrete pair of derivations of the production
relation. -/
theorem c8_witness :
    ([] : List (List Char)) = [] ∧ gZero = gZero ∧
      DayRecords gZero 0 (birder_list 0 gZero).1 (birder_list 0 gZero).2 :=
  c8_deterministic_run gZero 0 [] [] gZero gZero
    (DayRecords.zero gZero) (DayRecords.zero gZero)

/-- Witness for C9 at a concrete configuration: list/daily versus
generator/daily over two days. -/
theorem c9_witness :
    mainModel "list" "daily" "2" gZero =
      Except.ok ⟨(choice _BIRDS gZero).1,
        (birder_list (Int.toNat 2) (choice _BIRDS gZero).2).1,
        countOcc (choice _BIRDS gZero).1
          (birder_list (Int.toNat 2) (choice _BIRDS gZero).2).1⟩ ∧
    mainModel "list" "daily" "2" gZero = mainModel "generator" "daily" "2" gZero :=
  c9_modes_consume_no_randomness "list" "generator" "daily" "daily" "2" 2 gZero
    (by decide) (by decide) (by decide) (by decide) rfl

/-- Witness for C10 at a concrete negative day count. -/
theorem c10_witness :
    mainModel "generator" "globally" "-5" gZero =
      Except.ok ⟨(choice _BIRDS gZero).1, [], 0⟩ :=
  c10_negative_days_accepted "generator" "globally" "-5" (-5) gZero
    (by decide) (by decide) rfl (by decide)

/-- Witness for the amended C2 at a concrete non-integer token. -/
theorem c2_witness :
    mainModel "list" "daily" "abc" gZero =
      Except.error (ArgError.invalidInt "DAYS" "abc") ∧
    mainModel "list" "daily" "abc" gZero = mainModel "list" "daily" "abc" gOne :=
  c2_amended_nonint_days_fail_fast "list" "daily" "abc" gZero gOne
    (by decide) (by decide) rfl

/-- Witness for C7 at concrete unrecognized mode tokens. -/
theorem c7_witness :
    (mainModel "lists" "daily" "3" gZero =
        Except.error (ArgError.invalidChoice "BIRDER" "lists") ∧
      mainModel "lists" "daily" "3" gZero = mainModel "lists" "daily" "3" gOne) ∧
    (mainModel "list" "weekly" "3" gZero =
        Except.error (ArgError.invalidChoice "WATCHER" "weekly") ∧
      mainModel "list" "weekly" "3" gZero = mainModel "list" "weekly" "3" gOne) :=
  ⟨(c7_bad_mode_fail_fast "lists" "daily" "3" gZero gOne).1 (by decide),
   (c7_bad_mode_fail_fast "list" "weekly" "3" gZero gOne).2 (by decide) (by decide)⟩

end Birder
